import Mathlib

/-!
Verification development for the jpg-to-pdf Telegram bot (src/bot.py).

The per-user session store and document assembly pipeline are embedded
shallowly: the session map is an association list from user id to session,
the filesystem is an association list from path to byte size, timestamps
are naturals (seconds), and the external effects (download size, image
decoding, PDF write success, delivery success, per-file deletion success,
the clock) are oracle parameters collected in explicit input structures.
-/

namespace JpgToPdfBot

/-- A decoded (RGB-converted) image, abstracted to an opaque identifier. -/
abbrev Image := String

/-- One per-user session: `{"images": [...], "last_active": t}` (bot.py line 56). -/
structure Session where
  images : List String
  last_active : Nat
  deriving Repr, DecidableEq

/-- The `user_sessions` global dict (bot.py line 15), keyed by Telegram user id. -/
abbrev SessionMap := List (Nat × Session)

/-- The constant `SESSION_TIMEOUT = 600` (bot.py line 17). -/
def SESSION_TIMEOUT : Nat := 600

/-- Python `dict.get`: first binding for the key, if any. -/
def dictGet (m : SessionMap) (k : Nat) : Option Session :=
  match m with
  | [] => none
  | (k', v) :: rest => if k' = k then some v else dictGet rest k

/-- Python `dict[k] = v`: replace the binding in place, or append it. -/
def dictSet (m : SessionMap) (k : Nat) (v : Session) : SessionMap :=
  match m with
  | [] => [(k, v)]
  | (k', v') :: rest => if k' = k then (k, v) :: rest else (k', v') :: dictSet rest k v

/-- Local storage: a finite map from file path to byte size. -/
abbrev FS := List (String × Nat)

/-- Models `os.remove` (also the truncation part of `open(path, 'wb')`). -/
def fsRemove (fs : FS) (p : String) : FS :=
  fs.filter (fun e => e.1 ≠ p)

/-- Models `open(path, 'wb')` followed by writing `sz` bytes: the file now exists with size `sz`. -/
def fsWrite (fs : FS) (p : String) (sz : Nat) : FS :=
  (p, sz) :: fsRemove fs p

/-- Models `os.path.exists`. -/
def fsHas (fs : FS) (p : String) : Bool :=
  fs.any (fun e => e.1 = p)

/-- Models `os.path.getsize(p) if os.path.exists(p) else 0` (bot.py lines 82-83). -/
def fsSize (fs : FS) (p : String) : Nat :=
  (((fs.find? (fun e => e.1 = p)).map Prod.snd)).getD 0

/-- Python `str.lower()`, character by character. -/
def pyLower (s : String) : String :=
  String.mk (s.data.map Char.toLower)

/-- Python `str.endswith(suffix)`. -/
def pyEndsWith (s suffix : String) : Bool :=
  suffix.data.isSuffixOf s.data

/-- Python `str.strip()`: drop leading and trailing whitespace. -/
def pyStrip (s : String) : String :=
  String.mk (((s.data.dropWhile Char.isWhitespace).reverse.dropWhile
    Char.isWhitespace).reverse)

/-- Helper `is_image_file` (bot.py lines 44-45):
`filename.lower().endswith((".jpg", ".jpeg", ".png"))`. -/
def is_image_file (filename : String) : Bool :=
  pyEndsWith (pyLower filename) ".jpg" || pyEndsWith (pyLower filename) ".jpeg" ||
    pyEndsWith (pyLower filename) ".png"

/-- Photo storage path `f"{user_id}_{photo.file_id}.jpg"` (bot.py line 66). -/
def photoPath (uid : Nat) (file_id : String) : String :=
  toString uid ++ "_" ++ file_id ++ ".jpg"

/-- Document storage path `f"{user_id}_{doc.file_unique_id}_{doc.file_name}"` (bot.py line 73). -/
def docPath (uid : Nat) (file_unique_id file_name : String) : String :=
  toString uid ++ "_" ++ file_unique_id ++ "_" ++ file_name

/-- The inbound event seen by `handle_images`, plus the oracles it consumes:
`photo` is the list of photo-size file ids (`update.message.photo`, the code
uses `photo[-1]`), `document` the optional `(file_unique_id, file_name)`
pair, and `downloadSize` the number of bytes the transport download writes
to the chosen storage path. -/
structure ImagesInput where
  user_id : Nat
  current_time : Nat
  photo : List String
  document : Option (String × String)
  downloadSize : Nat
  deriving Repr, DecidableEq

/-- The user-visible outcome of `handle_images`. -/
inductive ImgResult where
  | saved
  | emptyFile
  | unsupportedType
  | noValidImage
  deriving Repr, DecidableEq

/-- The session after the idle-timeout check of `handle_images` (bot.py
lines 56-59): `setdefault` the session, then clear `images` in place when
`current_time - last_active > SESSION_TIMEOUT` (`last_active` not touched). -/
def afterTimeout (m : SessionMap) (uid now : Nat) : Session :=
  let s0 := (dictGet m uid).getD { images := [], last_active := now }
  if now - s0.last_active > SESSION_TIMEOUT then { s0 with images := [] } else s0

/-- The storage path `handle_images` downloads to, when any: the photo path
for `photo[-1]` if a photo is present, else the document path when the
declared name passes `is_image_file`. -/
def filePathOf (inp : ImagesInput) : Option String :=
  match inp.photo.getLast? with
  | some fid => some (photoPath inp.user_id fid)
  | none =>
    match inp.document with
    | some d => if is_image_file d.2 then some (docPath inp.user_id d.1 d.2) else none
    | none => none

/-- Bot.py lines 81-93: the file is already written; check its size, and
either append it to the session (refreshing `last_active`) or report an
empty file and remove it. -/
def saveStep (m1 : SessionMap) (fs : FS) (uid now : Nat) (s1 : Session)
    (file_path : String) (sz : Nat) : SessionMap × FS × ImgResult :=
  let fs1 := fsWrite fs file_path sz
  if fsSize fs1 file_path > 0 then
    (dictSet m1 uid { images := s1.images ++ [file_path], last_active := now }, fs1,
      ImgResult.saved)
  else
    (m1, fsRemove fs1 file_path, ImgResult.emptyFile)

/-- Handler `handle_images` (bot.py lines 53-95), the non-exceptional paths:
session setdefault and idle-timeout clear, then the photo / image-document
/ unsupported-document / no-image branching, download, and the
empty-download check. -/
def handle_images (m : SessionMap) (fs : FS) (inp : ImagesInput) :
    SessionMap × FS × ImgResult :=
  let uid := inp.user_id
  let now := inp.current_time
  let s1 := afterTimeout m uid now
  let m1 := dictSet m uid s1
  match inp.photo.getLast? with
  | some fid => saveStep m1 fs uid now s1 (photoPath uid fid) inp.downloadSize
  | none =>
    match inp.document with
    | some d =>
      if is_image_file d.2 then
        saveStep m1 fs uid now s1 (docPath uid d.1 d.2) inp.downloadSize
      else (m1, fs, ImgResult.unsupportedType)
    | none => (m1, fs, ImgResult.noValidImage)

/-- Outcome of `handle_trigger`: `ready` is the `return ASK_NAME` transition
into the naming state; the other two are `return ConversationHandler.END`. -/
inductive TrigResult where
  | no_images
  | expired
  | ready
  deriving Repr, DecidableEq

/-- Handler `handle_trigger` (bot.py lines 102-118): no-session / empty-list check
first, then the idle-timeout check (clear images, refresh `last_active`),
else prompt for a name and enter `ASK_NAME`. -/
def handle_trigger (m : SessionMap) (uid now : Nat) : SessionMap × TrigResult :=
  match dictGet m uid with
  | none => (m, TrigResult.no_images)
  | some s =>
    if s.images.isEmpty then (m, TrigResult.no_images)
    else if now - s.last_active > SESSION_TIMEOUT then
      (dictSet m uid { images := [], last_active := now }, TrigResult.expired)
    else (m, TrigResult.ready)

/-- Models `rgb_images[0].save(f, format="PDF", save_all=True, append_images=rgb_images[1:], ...)`
(bot.py lines 158-165): the produced document's pages are the first image
followed by the appended ones, in list order. -/
def pilSavePdf (first : Image) (append_images : List Image) : List Image :=
  first :: append_images

/-- Oracles consumed by `receive_pdf_name`: `decode` models
`Image.open(path).convert("RGB")` (`none` = the open raised, the warning
path), `writeOk` whether the PDF write raises, `pdfSize` the byte size of
the written PDF file, `sendOk` whether `reply_document` succeeds,
`removeOk` whether `os.remove` of a given path succeeds, and `endTime` the
`time.time()` value at the final session reset. -/
structure BuildEnv where
  decode : String → Option Image
  writeOk : Bool
  pdfSize : Nat
  sendOk : Bool
  removeOk : String → Bool
  endTime : Nat

/-- The user-visible outcome of `receive_pdf_name`. `keyErrorImages` models
the unguarded `session["images"]` access in the cleanup path raising on a
missing session; `delivered` carries the PDF storage path, the delivered
filename, and the document's pages. -/
inductive BuildResult where
  | no_valid_images
  | write_error
  | send_error
  | keyErrorImages
  | delivered (pdf_path : String) (filename : String) (pages : List Image)
  deriving Repr, DecidableEq

/-- Best-effort cleanup (bot.py lines 189-195): one `try` around all the
removals, so the first failing `os.remove` raises, is logged, and aborts
the remaining removals. -/
def removeAll (ok : String → Bool) (fs : FS) : List String → FS
  | [] => fs
  | p :: ps => if ok p then removeAll ok (fsRemove fs p) ps else fs

/-- Handler `receive_pdf_name` (bot.py lines 121-198): trim the raw text
(`update.message.text.strip()`, no further sanitization), fetch the session
with `user_sessions.get(user_id, {})`, decode each stored path skipping
failures, bail out with `no_valid_images` on an empty decode list, write
the PDF to `f"{name}.pdf"` (a write exception reports and ends the flow; a
zero-byte result at lines 168-174 is only logged, never reported), deliver
it (a send exception reports and ends the flow with no cleanup), then
best-effort delete the PDF and the stored `session["images"]` paths and
reset the session to `{"images": [], "last_active": time.time()}`. The
inner `if not rgb_images` guard at line 153 is subsumed by the outer
non-empty match (`rgb_images` is a copy of the non-empty `images`). -/
def receive_pdf_name (env : BuildEnv) (m : SessionMap) (fs : FS) (uid : Nat)
    (raw : String) : SessionMap × FS × BuildResult :=
  let name := pyStrip raw
  let sessionOpt := dictGet m uid
  let imgs0 := (sessionOpt.map Session.images).getD []
  let images := imgs0.filterMap env.decode
  match images with
  | [] => (m, fs, BuildResult.no_valid_images)
  | first :: rest =>
    let pdf_path := name ++ ".pdf"
    if env.writeOk then
      let pages := pilSavePdf first rest
      let fs1 := fsWrite fs pdf_path env.pdfSize
      if env.sendOk then
        match sessionOpt with
        | none => (m, fs1, BuildResult.keyErrorImages)
        | some s =>
          let fs2 := removeAll env.removeOk fs1 (pdf_path :: s.images)
          (dictSet m uid { images := [], last_active := env.endTime }, fs2,
            BuildResult.delivered pdf_path (name ++ ".pdf") pages)
      else (m, fs1, BuildResult.send_error)
    else (m, fs, BuildResult.write_error)

/-- Sanitization as the spec words it (not present in the source): every
character outside {alphanumeric, dash, underscore, dot, space} replaced
with an underscore. -/
def sanitize_spec (s : String) : String :=
  String.mk (s.data.map (fun c =>
    if c.isAlphanum || c = '-' || c = '_' || c = '.' || c = ' ' then c else '_'))

/-- Acceptance of a declared document filename as the spec words it: the
name ends in `.jpg`, `.jpeg` or `.png` case-insensitively. -/
def allowedExt_spec (fname : String) : Bool :=
  [".jpg", ".jpeg", ".png"].any (fun ext => pyEndsWith (pyLower fname) ext)

/-- Concrete fixture: an environment in which every external effect succeeds. -/
def envAllOk : BuildEnv :=
  { decode := fun _ => some ("img"), writeOk := true, pdfSize := 5, sendOk := true,
    removeOk := fun _ => true, endTime := 1000 }

/-- Concrete fixture: write succeeds but produces a zero-byte PDF, and
deletions fail so the written file stays observable. -/
def envZeroPdf : BuildEnv :=
  { envAllOk with pdfSize := 0, removeOk := fun _ => false }

/-- Concrete fixture: environment whose delivery step fails. -/
def envSendFail : BuildEnv :=
  { envAllOk with sendOk := false }

/-- Concrete fixture: environment whose PDF write raises. -/
def envWriteFail : BuildEnv :=
  { envAllOk with writeOk := false }

/-- Concrete fixture: session map with one user holding one stored image. -/
def mOne : SessionMap := [(7, { images := ["7_x.jpg"], last_active := 100 })]

/-- Concrete fixture: storage holding that user's one stored image. -/
def fsOne : FS := [("7_x.jpg", 10)]

/-- Concrete fixture: a two-size photo upload with a 9-byte download. -/
def inpPhotoW : ImagesInput :=
  { user_id := 7, current_time := 50, photo := ["a", "b"], document := none,
    downloadSize := 9 }

/-- Concrete fixture: an image-typed document whose download is empty. -/
def inpDocEmptyW : ImagesInput :=
  { user_id := 7, current_time := 50, photo := [], document := some ("u1", "pic.PNG"),
    downloadSize := 0 }

/-- Concrete fixture: a document with a disallowed extension. -/
def inpBadDocW : ImagesInput :=
  { user_id := 7, current_time := 50, photo := [], document := some ("u1", "pic.gif"),
    downloadSize := 9 }

/-- Concrete fixture: a photo upload arriving long after `last_active = 0`. -/
def inpLateW : ImagesInput :=
  { user_id := 7, current_time := 1000, photo := ["a"], document := none,
    downloadSize := 9 }

/-! ## Helper lemmas about the map and filesystem embeddings -/

theorem dictGet_dictSet (m : SessionMap) (k : Nat) (v : Session) :
    dictGet (dictSet m k v) k = some v := by
  induction m with
  | nil => simp [dictGet, dictSet]
  | cons e rest ih =>
    obtain ⟨k', v'⟩ := e
    by_cases h : k' = k <;> simp [dictGet, dictSet, h, ih]

theorem dictSet_dictSet (m : SessionMap) (k : Nat) (v w : Session) :
    dictSet (dictSet m k v) k w = dictSet m k w := by
  induction m with
  | nil => simp [dictSet]
  | cons e rest ih =>
    obtain ⟨k', v'⟩ := e
    by_cases h : k' = k <;> simp [dictSet, h, ih]

theorem fsSize_fsWrite (fs : FS) (p : String) (sz : Nat) :
    fsSize (fsWrite fs p sz) p = sz := by
  simp [fsSize, fsWrite, List.find?]

theorem fsHas_fsWrite_self (fs : FS) (p : String) (sz : Nat) :
    fsHas (fsWrite fs p sz) p = true := by
  simp [fsHas, fsWrite]

theorem fsHas_fsRemove_self (fs : FS) (p : String) :
    fsHas (fsRemove fs p) p = false := by
  simp [fsHas, fsRemove, List.any_eq_true, List.mem_filter]

theorem fsHas_fsRemove_of_not (fs : FS) (p q : String) (h : fsHas fs p = false) :
    fsHas (fsRemove fs q) p = false := by
  simp only [fsHas, fsRemove, List.any_eq_false] at h ⊢
  intro e he
  exact h e (List.mem_filter.mp he).1

theorem fsHas_removeAll_of_not (ok : String → Bool) (l : List String) (fs : FS)
    (p : String) (h : fsHas fs p = false) : fsHas (removeAll ok fs l) p = false := by
  induction l generalizing fs with
  | nil => simpa [removeAll] using h
  | cons q qs ih =>
    by_cases hq : ok q = true
    · simpa [removeAll, hq] using ih (fsRemove fs q) (fsHas_fsRemove_of_not fs p q h)
    · simpa [removeAll, hq] using h

theorem fsHas_removeAll_mem (ok : String → Bool) (l : List String) (fs : FS)
    (p : String) (hok : ∀ q ∈ l, ok q = true) (hp : p ∈ l) :
    fsHas (removeAll ok fs l) p = false := by
  induction l generalizing fs with
  | nil => cases hp
  | cons q qs ih =>
    have hq : ok q = true := hok q (List.mem_cons_self q qs)
    rcases List.mem_cons.mp hp with h1 | h2
    · subst h1
      simpa [removeAll, hq] using
        fsHas_removeAll_of_not ok qs (fsRemove fs p) p (fsHas_fsRemove_self fs p)
    · simpa [removeAll, hq] using
        ih (fsRemove fs q) (fun r hr => hok r (List.mem_cons_of_mem q hr)) h2

/-! ## Claim theorems -/

/-- C5: a session whose image list is empty never produces a document:
`handle_trigger` with no session or an empty image list reports
`no_images` (so never the `ready` transition into the naming state), and
`receive_pdf_name` over an empty list reports `no_valid_images` leaving
the session map and the storage untouched (no PDF created or sent). -/
theorem c5_empty_list_never_document :
    (∀ (m : SessionMap) (uid now : Nat),
      (dictGet m uid = none ∨ ∃ s, dictGet m uid = some s ∧ s.images = []) →
      handle_trigger m uid now = (m, TrigResult.no_images))
    ∧ (∀ (env : BuildEnv) (m : SessionMap) (fs : FS) (uid : Nat) (raw : String),
      ((dictGet m uid).map Session.images).getD [] = [] →
      receive_pdf_name env m fs uid raw = (m, fs, BuildResult.no_valid_images)) := by
  constructor
  · intro m uid now h
    rcases h with h | ⟨s, hs, hempty⟩
    · simp [handle_trigger, h]
    · simp [handle_trigger, hs, List.isEmpty_iff, hempty]
  · intro env m fs uid raw h
    simp [receive_pdf_name, h]

/-- C5 witness: the theorem applied to an empty map and a fully successful
environment. -/
theorem c5_empty_list_never_document_witness :
    handle_trigger [] 7 0 = ([], TrigResult.no_images)
    ∧ receive_pdf_name envAllOk [] [] 7 "n" = ([], [], BuildResult.no_valid_images) :=
  ⟨c5_empty_list_never_document.1 [] 7 0 (Or.inl rfl),
   c5_empty_list_never_document.2 envAllOk [] [] 7 "n" rfl⟩

/-- C10: invoking `receive_pdf_name` with no session entry for the user
terminates gracefully with `no_valid_images` and no state change, and (for
every input whatsoever) the unguarded `session["images"]` access in the
cleanup path is never reached: the `keyErrorImages` outcome is impossible. -/
theorem c10_missing_session_graceful :
    (∀ (env : BuildEnv) (m : SessionMap) (fs : FS) (uid : Nat) (raw : String),
      dictGet m uid = none →
      receive_pdf_name env m fs uid raw = (m, fs, BuildResult.no_valid_images))
    ∧ (∀ (env : BuildEnv) (m : SessionMap) (fs : FS) (uid : Nat) (raw : String),
      (receive_pdf_name env m fs uid raw).2.2 ≠ BuildResult.keyErrorImages) := by
  constructor
  · intro env m fs uid raw h
    simp [receive_pdf_name, h]
  · intro env m fs uid raw
    cases hs : dictGet m uid with
    | none => simp [receive_pdf_name, hs]
    | some s =>
      cases himg : s.images.filterMap env.decode with
      | nil => simp [receive_pdf_name, hs, himg]
      | cons a l =>
        by_cases hw : env.writeOk = true <;> by_cases hsend : env.sendOk = true <;>
          simp [receive_pdf_name, hs, himg, hw, hsend]

/-- C10 witness: the theorem applied to the empty session map. -/
theorem c10_missing_session_graceful_witness :
    receive_pdf_name envAllOk [] [] 7 "n" = ([], [], BuildResult.no_valid_images)
    ∧ (receive_pdf_name envAllOk mOne fsOne 7 "n").2.2 ≠ BuildResult.keyErrorImages :=
  ⟨c10_missing_session_graceful.1 envAllOk [] [] 7 "n" rfl,
   c10_missing_session_graceful.2 envAllOk mOne fsOne 7 "n"⟩

/-- C6: in `receive_pdf_name`, stored paths that fail to decode are
skipped without aborting the batch (the decoded list is the `filterMap` of
the decode oracle over the stored list); when at least one image decodes
and the write and delivery succeed the flow produces and delivers the PDF
whose pages are exactly the decoded images, and when zero images decode it
reports `no_valid_images` and terminates leaving the session map (hence
the session's image list) and storage untouched. -/
theorem c6_decode_failures_skipped
    (env : BuildEnv) (m : SessionMap) (fs : FS) (uid : Nat) (raw : String) :
    ((((dictGet m uid).map Session.images).getD []).filterMap env.decode = [] →
      receive_pdf_name env m fs uid raw = (m, fs, BuildResult.no_valid_images))
    ∧ (∀ first rest,
      (((dictGet m uid).map Session.images).getD []).filterMap env.decode = first :: rest →
      env.writeOk = true → env.sendOk = true →
      (receive_pdf_name env m fs uid raw).2.2
        = BuildResult.delivered (pyStrip raw ++ ".pdf") (pyStrip raw ++ ".pdf")
            (first :: rest)) := by
  constructor
  · intro h
    simp [receive_pdf_name, h]
  · intro first rest himg hw hsend
    cases hs : dictGet m uid with
    | none => rw [hs] at himg; simp at himg
    | some s =>
      rw [hs] at himg
      simp only [Option.map_some', Option.getD_some] at himg
      simp [receive_pdf_name, hs, himg, hw, hsend, pilSavePdf]

/-- C6 witness: one decodable image, delivered with a single page. -/
theorem c6_decode_failures_skipped_witness :
    receive_pdf_name envAllOk [] [] 7 "n" = ([], [], BuildResult.no_valid_images)
    ∧ (receive_pdf_name envAllOk mOne fsOne 7 "n").2.2
        = BuildResult.delivered (pyStrip ("n") ++ ".pdf")
            (pyStrip ("n") ++ ".pdf") ["img"] :=
  ⟨(c6_decode_failures_skipped envAllOk [] [] 7 "n").1 rfl,
   (c6_decode_failures_skipped envAllOk mOne fsOne 7 "n").2 ("img") [] rfl rfl rfl⟩

/-- C9: when delivery fails after a successful PDF write, `receive_pdf_name`
reports `send_error` and terminates with no cleanup: the session map is
unchanged (the session's image list stays non-empty), and storage holds
exactly the previous files plus the assembled PDF — every source image
file survives and the PDF remains present. -/
theorem c9_delivery_failure_no_cleanup
    (env : BuildEnv) (m : SessionMap) (fs : FS) (uid : Nat) (raw : String)
    (hw : env.writeOk = true) (hsend : env.sendOk = false)
    (hne : (((dictGet m uid).map Session.images).getD []).filterMap env.decode ≠ []) :
    (receive_pdf_name env m fs uid raw).2.2 = BuildResult.send_error
    ∧ (receive_pdf_name env m fs uid raw).1 = m
    ∧ ((dictGet m uid).map Session.images).getD [] ≠ []
    ∧ (receive_pdf_name env m fs uid raw).2.1
        = fsWrite fs (pyStrip raw ++ ".pdf") env.pdfSize
    ∧ fsHas (receive_pdf_name env m fs uid raw).2.1 (pyStrip raw ++ ".pdf") = true := by
  have h0 : ((dictGet m uid).map Session.images).getD [] ≠ [] := by
    intro hl; exact hne (by simp [hl])
  cases himg : (((dictGet m uid).map Session.images).getD []).filterMap env.decode with
  | nil => exact absurd himg hne
  | cons first rest =>
    refine ⟨?_, ?_, h0, ?_, ?_⟩ <;>
      simp [receive_pdf_name, himg, hw, hsend, fsHas_fsWrite_self]

/-- C9 witness: the theorem applied to a one-image session with a failing
delivery step. -/
theorem c9_delivery_failure_no_cleanup_witness :
    (receive_pdf_name envSendFail mOne fsOne 7 "n").2.2 = BuildResult.send_error
    ∧ (receive_pdf_name envSendFail mOne fsOne 7 "n").1 = mOne
    ∧ ((dictGet mOne 7).map Session.images).getD [] ≠ []
    ∧ (receive_pdf_name envSendFail mOne fsOne 7 "n").2.1
        = fsWrite fsOne (pyStrip ("n") ++ ".pdf") envSendFail.pdfSize
    ∧ fsHas (receive_pdf_name envSendFail mOne fsOne 7 "n").2.1
        (pyStrip ("n") ++ ".pdf") = true :=
  c9_delivery_failure_no_cleanup envSendFail mOne fsOne 7 "n" rfl rfl (by decide)

/-- C1 counterexample: on input `"../../etc/passwd"` the flow delivers a
PDF whose storage path and filename are `"../../etc/passwd.pdf"` — the
untouched input plus the extension — while the spec's sanitization would
have produced `".._.._etc_passwd"`; the path still contains `'/'`, so the
claimed replacement does not happen and a path-traversing storage path is
produced. -/
theorem c1_counterexample :
    (receive_pdf_name envAllOk mOne fsOne 7 "../../etc/passwd").2.2
      = BuildResult.delivered "../../etc/passwd.pdf" "../../etc/passwd.pdf" ["img"]
    ∧ sanitize_spec ("../../etc/passwd") = ".._.._etc_passwd"
    ∧ "../../etc/passwd.pdf" ≠ sanitize_spec ("../../etc/passwd") ++ ".pdf"
    ∧ '/' ∈ "../../etc/passwd.pdf".data :=
  ⟨by decide, by decide, by decide, by decide⟩

/-- C1 (amended): `receive_pdf_name` applies no character sanitization at
all — the user text is only stripped of surrounding whitespace, and both
the PDF storage path and the delivered filename are exactly
`trim(text) ++ ".pdf"`, so characters outside the safe set (including
`'/'`) survive into the storage path. -/
theorem c1_amended_no_sanitization
    (env : BuildEnv) (m : SessionMap) (fs : FS) (uid : Nat) (raw p f : String)
    (pages : List Image)
    (h : (receive_pdf_name env m fs uid raw).2.2 = BuildResult.delivered p f pages) :
    p = pyStrip raw ++ ".pdf" ∧ f = pyStrip raw ++ ".pdf" := by
  cases hs : dictGet m uid with
  | none => simp [receive_pdf_name, hs] at h
  | some s =>
    cases himg : s.images.filterMap env.decode with
    | nil => simp [receive_pdf_name, hs, himg] at h
    | cons a l =>
      by_cases hw : env.writeOk = true
      · by_cases hsend : env.sendOk = true
        · simp [receive_pdf_name, hs, himg, hw, hsend, pilSavePdf] at h
          exact ⟨h.1.symm, h.2.1.symm⟩
        · simp [receive_pdf_name, hs, himg, hw, hsend] at h
      · simp [receive_pdf_name, hs, himg, hw] at h

/-- C1 amended witness: the delivered path and filename for the traversal
input are the trimmed input plus the extension, by the amended theorem. -/
theorem c1_amended_no_sanitization_witness :
    ("../../etc/passwd.pdf" : String) = pyStrip ("../../etc/passwd") ++ ".pdf"
    ∧ ("../../etc/passwd.pdf" : String) = pyStrip ("../../etc/passwd") ++ ".pdf" :=
  c1_amended_no_sanitization envAllOk mOne fsOne 7 "../../etc/passwd"
    "../../etc/passwd.pdf" "../../etc/passwd.pdf" ["img"] (by decide)

/-- C2 counterexample: with a write that succeeds but yields a zero-byte
PDF file (and failing deletions, so the file stays observable), the flow
does not report an error or terminate — it proceeds to deliver the
document, and storage afterwards holds the PDF path with size 0. -/
theorem c2_counterexample :
    (receive_pdf_name envZeroPdf mOne fsOne 7 "n").2.2
      = BuildResult.delivered "n.pdf" "n.pdf" ["img"]
    ∧ fsHas (receive_pdf_name envZeroPdf mOne fsOne 7 "n").2.1 "n.pdf" = true
    ∧ fsSize (receive_pdf_name envZeroPdf mOne fsOne 7 "n").2.1 "n.pdf" = 0 :=
  ⟨by decide, by decide, by decide⟩

/-- C2 (amended): only an exception during the PDF write causes a
user-facing error report and terminates the flow with the session map
untouched; a write that succeeds but yields a zero-byte file is merely
logged server-side, and the flow proceeds to deliver the document — the
delivered outcome below holds for every `pdfSize`, including 0. -/
theorem c2_amended_write_failure_handling
    (env : BuildEnv) (m : SessionMap) (fs : FS) (uid : Nat) (raw : String) :
    (env.writeOk = false →
      (((dictGet m uid).map Session.images).getD []).filterMap env.decode ≠ [] →
      (receive_pdf_name env m fs uid raw).2.2 = BuildResult.write_error
      ∧ (receive_pdf_name env m fs uid raw).1 = m)
    ∧ (∀ first rest,
      (((dictGet m uid).map Session.images).getD []).filterMap env.decode = first :: rest →
      env.writeOk = true → env.sendOk = true →
      (receive_pdf_name env m fs uid raw).2.2
        = BuildResult.delivered (pyStrip raw ++ ".pdf") (pyStrip raw ++ ".pdf")
            (first :: rest)) := by
  constructor
  · intro hw hne
    cases himg : (((dictGet m uid).map Session.images).getD []).filterMap env.decode with
    | nil => exact absurd himg hne
    | cons a l => constructor <;> simp [receive_pdf_name, himg, hw]
  · intro first rest himg hw hsend
    cases hs : dictGet m uid with
    | none => rw [hs] at himg; simp at himg
    | some s =>
      rw [hs] at himg
      simp only [Option.map_some', Option.getD_some] at himg
      simp [receive_pdf_name, hs, himg, hw, hsend, pilSavePdf]

/-- C2 amended witness: a failing write reports `write_error` leaving the
map unchanged, and a successful write with `pdfSize = 0` still delivers. -/
theorem c2_amended_write_failure_handling_witness :
    ((receive_pdf_name envWriteFail mOne fsOne 7 "n").2.2 = BuildResult.write_error
      ∧ (receive_pdf_name envWriteFail mOne fsOne 7 "n").1 = mOne)
    ∧ (receive_pdf_name envZeroPdf mOne fsOne 7 "n").2.2
        = BuildResult.delivered (pyStrip ("n") ++ ".pdf")
            (pyStrip ("n") ++ ".pdf") ["img"] :=
  ⟨(c2_amended_write_failure_handling envWriteFail mOne fsOne 7 "n").1 rfl (by decide),
   (c2_amended_write_failure_handling envZeroPdf mOne fsOne 7 "n").2 ("img") [] rfl rfl rfl⟩

/-- The spec's wording of the allowed-extension test coincides with the
source helper `is_image_file`. -/
theorem allowedExt_spec_eq_is_image_file (fname : String) :
    allowedExt_spec fname = is_image_file fname := by
  simp [allowedExt_spec, is_image_file, Bool.or_assoc]

/-- C3: `handle_images` accepts an upload (result `saved`, path appended)
if and only if the event carries a photo, or a document whose declared
filename ends in `.jpg`/`.jpeg`/`.png` case-insensitively, and the
downloaded artifact has nonzero byte length; a document failing the
extension test is rejected with the unsupported-type error; and a
zero-length download yields the save-failure report with the downloaded
file removed from storage and the session left exactly as it was after
the timeout check (nothing appended). -/
theorem c3_upload_acceptance (m : SessionMap) (fs : FS) (inp : ImagesInput) :
    ((handle_images m fs inp).2.2 = ImgResult.saved ↔
      ((inp.photo ≠ [] ∨ (∃ d, inp.document = some d ∧ allowedExt_spec d.2 = true))
        ∧ 0 < inp.downloadSize))
    ∧ (inp.photo = [] →
        ∀ d, inp.document = some d → is_image_file d.2 = false →
        (handle_images m fs inp).2.2 = ImgResult.unsupportedType)
    ∧ (∀ p, filePathOf inp = some p → inp.downloadSize = 0 →
        (handle_images m fs inp).2.2 = ImgResult.emptyFile
        ∧ fsHas (handle_images m fs inp).2.1 p = false
        ∧ dictGet (handle_images m fs inp).1 inp.user_id
            = some (afterTimeout m inp.user_id inp.current_time)) := by
  refine ⟨?_, ?_, ?_⟩
  · cases hph : inp.photo.getLast? with
    | some fid =>
      have hne : inp.photo ≠ [] := by
        intro h0; rw [h0] at hph; simp at hph
      by_cases hsz : 0 < inp.downloadSize
      · simp [handle_images, hph, saveStep, fsSize_fsWrite, hsz, hne]
      · simp [handle_images, hph, saveStep, fsSize_fsWrite, hsz]
    | none =>
      have hpe : inp.photo = [] := List.getLast?_eq_none_iff.mp hph
      cases hdoc : inp.document with
      | none => simp [handle_images, hph, hdoc, hpe]
      | some d =>
        by_cases hif : is_image_file d.2 = true
        · by_cases hsz : 0 < inp.downloadSize
          · simp [handle_images, hph, hdoc, saveStep, fsSize_fsWrite, hif, hsz, hpe,
              allowedExt_spec_eq_is_image_file]
          · simp [handle_images, hph, hdoc, saveStep, fsSize_fsWrite, hif, hsz, hpe,
              allowedExt_spec_eq_is_image_file]
        · simp [handle_images, hph, hdoc, hif, hpe, allowedExt_spec_eq_is_image_file]
  · intro hpe d hdoc hbad
    have hph : inp.photo.getLast? = none := by rw [hpe]; rfl
    simp [handle_images, hph, hdoc, hbad]
  · intro p hp hsz
    cases hph : inp.photo.getLast? with
    | some fid =>
      simp only [filePathOf, hph, Option.some.injEq] at hp
      subst hp
      refine ⟨?_, ?_, ?_⟩ <;>
        simp [handle_images, hph, saveStep, fsSize_fsWrite, hsz, fsHas_fsRemove_self,
          dictGet_dictSet]
    | none =>
      cases hdoc : inp.document with
      | none => simp [filePathOf, hph, hdoc] at hp
      | some d =>
        by_cases hif : is_image_file d.2 = true
        · simp only [filePathOf, hph, hdoc, hif, if_true, Option.some.injEq] at hp
          subst hp
          refine ⟨?_, ?_, ?_⟩ <;>
            simp [handle_images, hph, hdoc, hif, saveStep, fsSize_fsWrite, hsz,
              fsHas_fsRemove_self, dictGet_dictSet]
        · simp [filePathOf, hph, hdoc, hif] at hp

/-- C3 witness: the iff accepts a 9-byte photo upload, the disallowed
`pic.gif` document is rejected as unsupported, and the empty `pic.PNG`
download is discarded without being appended. -/
theorem c3_upload_acceptance_witness :
    (handle_images [] [] inpPhotoW).2.2 = ImgResult.saved
    ∧ (handle_images [] [] inpBadDocW).2.2 = ImgResult.unsupportedType
    ∧ ((handle_images [] [] inpDocEmptyW).2.2 = ImgResult.emptyFile
        ∧ fsHas (handle_images [] [] inpDocEmptyW).2.1 (docPath 7 "u1" "pic.PNG") = false
        ∧ dictGet (handle_images [] [] inpDocEmptyW).1 7 = some (afterTimeout [] 7 50)) :=
  ⟨(c3_upload_acceptance [] [] inpPhotoW).1.mpr ⟨Or.inl (by decide), by decide⟩,
   (c3_upload_acceptance [] [] inpBadDocW).2.1 rfl ("u1", "pic.gif") rfl (by decide),
   (c3_upload_acceptance [] [] inpDocEmptyW).2.2 (docPath 7 "u1" "pic.PNG") (by decide) rfl⟩

/-- C4: idle-timeout eviction. When the gap between a session's
`last_active` and the next interaction exceeds `SESSION_TIMEOUT` (600 s):
in `handle_images` the whole run is indistinguishable from a run on the
session with its accumulated image list already cleared (the clear happens
before the upload is processed); in `handle_trigger` (with a non-empty
list, otherwise the no-images check fires first over an already-empty
list) the image list is cleared, `last_active` is refreshed to now, the
result is `expired`, and the flow terminates without the `ready`
transition into the naming state. -/
theorem c4_idle_timeout_eviction
    (m : SessionMap) (fs : FS) (inp : ImagesInput) (s0 : Session)
    (hget : dictGet m inp.user_id = some s0)
    (hexp : inp.current_time - s0.last_active > SESSION_TIMEOUT) :
    handle_images m fs inp
      = handle_images (dictSet m inp.user_id { s0 with images := [] }) fs inp
    ∧ (s0.images ≠ [] →
        handle_trigger m inp.user_id inp.current_time
          = (dictSet m inp.user_id
              { images := [], last_active := inp.current_time }, TrigResult.expired)) := by
  have hA : afterTimeout m inp.user_id inp.current_time = { s0 with images := [] } := by
    simp [afterTimeout, hget, hexp]
  have hB : afterTimeout (dictSet m inp.user_id { s0 with images := [] })
      inp.user_id inp.current_time = { s0 with images := [] } := by
    simp [afterTimeout, dictGet_dictSet, hexp]
  constructor
  · simp only [handle_images, hA, hB, dictSet_dictSet]
  · intro hne
    simp [handle_trigger, hget, List.isEmpty_iff, hne, hexp]

/-- C4 witness: the theorem applied to a 1000-second-old one-image session. -/
theorem c4_idle_timeout_eviction_witness :
    handle_images [(7, { images := ["old"], last_active := 0 })] [] inpLateW
      = handle_images
          (dictSet [(7, { images := ["old"], last_active := 0 })] 7
            { images := [], last_active := 0 }) [] inpLateW
    ∧ handle_trigger [(7, { images := ["old"], last_active := 0 })] 7 1000
        = (dictSet [(7, { images := ["old"], last_active := 0 })] 7
            { images := [], last_active := 1000 }, TrigResult.expired) := by
  have h := c4_idle_timeout_eviction [(7, { images := ["old"], last_active := 0 })] []
    inpLateW { images := ["old"], last_active := 0 } rfl (by decide)
  exact ⟨h.1, h.2 (by decide)⟩

/-- C7: round-trip page order. An accepted upload appends its storage path
at the end of the session's image list (with `last_active` refreshed), so
upload order is preserved; and when every stored path decodes
successfully (decode is total, given by `f`), a successful build delivers
a PDF whose page list is exactly the image list mapped through `f` — N
uploads give N pages, the first stored image as page 1 and the rest in
upload order. -/
theorem c7_round_trip_page_order :
    (∀ (m : SessionMap) (fs : FS) (inp : ImagesInput) (p : String),
      filePathOf inp = some p → 0 < inp.downloadSize →
      dictGet (handle_images m fs inp).1 inp.user_id
        = some { images := (afterTimeout m inp.user_id inp.current_time).images ++ [p],
                 last_active := inp.current_time })
    ∧ (∀ (env : BuildEnv) (m : SessionMap) (fs : FS) (uid : Nat) (raw : String)
        (f : String → Image) (s : Session),
      dictGet m uid = some s → s.images ≠ [] →
      (∀ x, env.decode x = some (f x)) →
      env.writeOk = true → env.sendOk = true →
      (receive_pdf_name env m fs uid raw).2.2
        = BuildResult.delivered (pyStrip raw ++ ".pdf") (pyStrip raw ++ ".pdf")
            (s.images.map f)) := by
  constructor
  · intro m fs inp p hp hsz
    cases hph : inp.photo.getLast? with
    | some fid =>
      simp only [filePathOf, hph, Option.some.injEq] at hp
      subst hp
      simp [handle_images, hph, saveStep, fsSize_fsWrite, hsz, dictGet_dictSet]
    | none =>
      cases hdoc : inp.document with
      | none => simp [filePathOf, hph, hdoc] at hp
      | some d =>
        by_cases hif : is_image_file d.2 = true
        · simp only [filePathOf, hph, hdoc, hif, if_true, Option.some.injEq] at hp
          subst hp
          simp [handle_images, hph, hdoc, hif, saveStep, fsSize_fsWrite, hsz,
            dictGet_dictSet]
        · simp [filePathOf, hph, hdoc, hif] at hp
  · intro env m fs uid raw f s hget hne hdec hw hsend
    have hdeceq : env.decode = fun x => some (f x) := funext hdec
    have hmap : s.images.filterMap env.decode = s.images.map f := by
      rw [hdeceq]; exact congrFun (List.filterMap_eq_map f) s.images
    cases hsi : s.images with
    | nil => exact absurd hsi hne
    | cons x xs =>
      have himg : s.images.filterMap env.decode = f x :: xs.map f := by
        rw [hmap, hsi, List.map_cons]
      simp [receive_pdf_name, hget, himg, hw, hsend, pilSavePdf]

/-- C7 witness: one stored image, totally decodable, delivered as a
one-page document in order. -/
theorem c7_round_trip_page_order_witness :
    dictGet (handle_images [] [] inpPhotoW).1 7
      = some { images := (afterTimeout [] 7 50).images ++ [photoPath 7 "b"],
               last_active := 50 }
    ∧ (receive_pdf_name envAllOk mOne fsOne 7 "n").2.2
        = BuildResult.delivered (pyStrip ("n") ++ ".pdf") (pyStrip ("n") ++ ".pdf")
            (["7_x.jpg"].map (fun _ => "img")) :=
  ⟨c7_round_trip_page_order.1 [] [] inpPhotoW (photoPath 7 "b") (by decide) (by decide),
   c7_round_trip_page_order.2 envAllOk mOne fsOne 7 "n" (fun _ => "img")
     { images := ["7_x.jpg"], last_active := 100 } rfl (by decide) (fun _ => rfl) rfl rfl⟩

/-- C8: after a successful build-and-deliver cycle the session is reset to
an empty image list with the fresh `last_active` timestamp taken at
cleanup time — and this reset happens for every deletion oracle, so an
individual deletion failure is not fatal; moreover when every `os.remove`
succeeds, the PDF file and every stored source image file of the session
are gone from storage. -/
theorem c8_success_cleanup
    (env : BuildEnv) (m : SessionMap) (fs : FS) (uid : Nat) (raw : String) (s : Session)
    (hget : dictGet m uid = some s)
    (hne : s.images.filterMap env.decode ≠ [])
    (hw : env.writeOk = true) (hsend : env.sendOk = true) :
    dictGet (receive_pdf_name env m fs uid raw).1 uid
      = some { images := [], last_active := env.endTime }
    ∧ ((∀ q ∈ (pyStrip raw ++ ".pdf") :: s.images, env.removeOk q = true) →
        fsHas (receive_pdf_name env m fs uid raw).2.1 (pyStrip raw ++ ".pdf") = false
        ∧ ∀ q ∈ s.images, fsHas (receive_pdf_name env m fs uid raw).2.1 q = false) := by
  cases himg : s.images.filterMap env.decode with
  | nil => exact absurd himg hne
  | cons first rest =>
    have hrun : receive_pdf_name env m fs uid raw
        = (dictSet m uid { images := [], last_active := env.endTime },
           removeAll env.removeOk (fsWrite fs (pyStrip raw ++ ".pdf") env.pdfSize)
             ((pyStrip raw ++ ".pdf") :: s.images),
           BuildResult.delivered (pyStrip raw ++ ".pdf") (pyStrip raw ++ ".pdf")
             (first :: rest)) := by
      simp [receive_pdf_name, hget, himg, hw, hsend, pilSavePdf]
    rw [hrun]
    refine ⟨dictGet_dictSet m uid _, fun hok => ⟨?_, fun q hq => ?_⟩⟩
    · exact fsHas_removeAll_mem _ _ _ _ hok (List.mem_cons_self _ _)
    · exact fsHas_removeAll_mem _ _ _ _ hok (List.mem_cons_of_mem _ hq)

/-- C8 witness: the theorem applied to a one-image session with an
all-successful environment; both files are gone and the session is reset. -/
theorem c8_success_cleanup_witness :
    dictGet (receive_pdf_name envAllOk mOne fsOne 7 "n").1 7
      = some { images := [], last_active := envAllOk.endTime }
    ∧ (fsHas (receive_pdf_name envAllOk mOne fsOne 7 "n").2.1 (pyStrip ("n") ++ ".pdf") = false
        ∧ ∀ q ∈ ({ images := ["7_x.jpg"], last_active := 100 } : Session).images,
            fsHas (receive_pdf_name envAllOk mOne fsOne 7 "n").2.1 q = false) := by
  have h := c8_success_cleanup envAllOk mOne fsOne 7 "n"
    { images := ["7_x.jpg"], last_active := 100 } rfl (by decide) rfl rfl
  exact ⟨h.1, h.2 (by decide)⟩

end JpgToPdfBot
